import Mathlib

/-!
Verification development for the ovos-rust-messagebus repository.

The configuration loader (`src/config.rs`) is embedded shallowly below:
`Config`, `RootConfig`, `WebSocketConfig` mirror the Rust structs, and
`Config.new`, `Config.parse_config`, `Config.apply_config` mirror the Rust
functions.  External effects are passed in explicitly:

* the process environment is a function `envf : String → Option String`
  (models `std::env::var`, which yields `Err` when the variable is unset);
* the file system is a function `fsf : String → Option String`
  (models `std::fs::read_to_string`, `None` on any read failure);
* the YAML deserializer of the external `serde_yaml` crate is a function
  `yamlf : String → Option RootConfig` (models
  `serde_yaml::from_str::<RootConfig>`, `None` on a parse error);
* the comment stripper `remove_comments` of the repository's `utils`
  module (whose source file is not part of the sources at hand) is a
  function `rmc : String → String`.

Rust's `u16` is embedded as `Fin 65536`, carrying the same range guarantee
the Rust type system gives.  `u32`-valued `max_msg_size` is embedded as a
`Nat` together with a range-checking parse model.  `serde_yaml::Value` is
embedded as the opaque-to-the-bus tree `JValue`, and `HashMap` as an
association list.
-/

/-- Embedding of a structured YAML/JSON value (`serde_yaml::Value` /
wire-format JSON); the bus treats these as opaque trees. -/
inductive JValue where
  | null : JValue
  | bool (b : Bool) : JValue
  | num (n : Int) : JValue
  | str (s : String) : JValue
  | arr (xs : List JValue) : JValue
  | obj (kvs : List (String × JValue)) : JValue

/-- Embedding of the resolved configuration struct `Config` of
`src/config.rs` (lines 8–17): fields `host`, `port`, `route`, `ssl`,
`max_msg_size`, plus the `#[serde(flatten)]` bag `extra` of unrecognized
options. -/
structure Config where
  host : String
  port : Fin 65536
  route : String
  ssl : Bool
  max_msg_size : Nat
  extra : List (String × JValue)

/-- Embedding of the `WebSocketConfig` struct of `src/config.rs`
(lines 24–33): every named field optional, unrecognized keys flattened
into `extra`. -/
structure WebSocketConfig where
  host : Option String
  port : Option (Fin 65536)
  route : Option String
  ssl : Option Bool
  max_msg_size : Option Nat
  extra : List (String × JValue)

/-- Embedding of the `RootConfig` struct of `src/config.rs`
(lines 19–22). -/
structure RootConfig where
  websocket : Option WebSocketConfig

/-- Decimal accumulator for the integer-parse model. -/
def parseDigitsAux : List Char → Nat → Option Nat
  | [], acc => some acc
  | c :: cs, acc =>
      if c.isDigit then parseDigitsAux cs (acc * 10 + (c.toNat - 48))
      else none

/-- Model of Rust's unsigned decimal parse over characters: a nonempty
run of digits. -/
def parseDigits (cs : List Char) : Option Nat :=
  match cs with
  | [] => none
  | _ => parseDigitsAux cs 0

/-- Strip the optional leading `+` Rust's integer parse accepts. -/
def stripPlus (cs : List Char) : List Char :=
  match cs with
  | '+' :: rest => rest
  | _ => cs

/-- Model of Rust's `str::parse::<u16>()`: an optional leading `+`
followed by decimal digits, rejecting values outside `u16` range. -/
def parseU16 (s : String) : Option (Fin 65536) :=
  match parseDigits (stripPlus s.toList) with
  | some n => if h : n < 65536 then some ⟨n, h⟩ else none
  | none => none

/-- Model of Rust's `str::parse::<u32>()`: an optional leading `+`
followed by decimal digits, rejecting values outside `u32` range. -/
def parseU32 (s : String) : Option Nat :=
  match parseDigits (stripPlus s.toList) with
  | some n => if n < 4294967296 then some n else none
  | none => none

/-- The built-in default configuration constructed at the top of
`Config::new` (`src/config.rs` lines 38–45). -/
def defaultConfig : Config :=
  { host := "127.0.0.1"
    port := ⟨8181, by decide⟩
    route := "/core"
    ssl := false
    max_msg_size := 25
    extra := [] }

/-- Embedding of `Config::apply_config` (`src/config.rs` lines 97–107):
when the parsed file has a `websocket` section, each named field replaces
the current value only when present (`unwrap_or`), while `extra` is
replaced unconditionally by the section's flattened unrecognized keys. -/
def Config.apply_config (root_config : RootConfig) (config : Config) : Config :=
  match root_config.websocket with
  | some websocket_config =>
      { host := websocket_config.host.getD config.host
        port := websocket_config.port.getD config.port
        route := websocket_config.route.getD config.route
        ssl := websocket_config.ssl.getD config.ssl
        max_msg_size := websocket_config.max_msg_size.getD config.max_msg_size
        extra := websocket_config.extra }
  | none => config

/-- Embedding of `Config::parse_config` (`src/config.rs` lines 80–95):
try the YAML deserializer on the raw contents; on failure, strip comments
with `remove_comments` and retry once; if both attempts fail, keep the
configuration built so far. -/
def Config.parse_config (yamlf : String → Option RootConfig)
    (rmc : String → String) (contents : String) (config : Config) : Config :=
  match yamlf contents with
  | some root_config => Config.apply_config root_config config
  | none =>
      let cleaned_contents := rmc contents
      match yamlf cleaned_contents with
      | some root_config => Config.apply_config root_config config
      | none => config

/-- The file-loading stage of `Config::new` (`src/config.rs` lines
47–54): when `OVOS_BUS_CONFIG_FILE` is set and the file is readable, run
`parse_config` on its contents; otherwise keep the configuration
unchanged. -/
def fileStage (envf : String → Option String) (fsf : String → Option String)
    (yamlf : String → Option RootConfig) (rmc : String → String)
    (config : Config) : Config :=
  match envf "OVOS_BUS_CONFIG_FILE" with
  | some config_file =>
      match fsf config_file with
      | some contents => Config.parse_config yamlf rmc contents config
      | none => config
  | none => config

/-- The `OVOS_BUS_HOST` override of `Config::new` (`src/config.rs`
lines 57–59). -/
def envHostStage (envf : String → Option String) (config : Config) : Config :=
  match envf "OVOS_BUS_HOST" with
  | some host => { config with host := host }
  | none => config

/-- The `OVOS_BUS_PORT` override of `Config::new` (`src/config.rs`
lines 60–64): applied only when the variable is set and parses as a
`u16`. -/
def envPortStage (envf : String → Option String) (config : Config) : Config :=
  match envf "OVOS_BUS_PORT" with
  | some port =>
      match parseU16 port with
      | some port => { config with port := port }
      | none => config
  | none => config

/-- The `OVOS_BUS_MAX_MSG_SIZE` override of `Config::new`
(`src/config.rs` lines 65–69): applied only when the variable is set and
parses as a `u32`. -/
def envMaxSizeStage (envf : String → Option String) (config : Config) :
    Config :=
  match envf "OVOS_BUS_MAX_MSG_SIZE" with
  | some max_msg_size =>
      match parseU32 max_msg_size with
      | some size => { config with max_msg_size := size }
      | none => config
  | none => config

/-- The `OVOS_BUS_ROUTE` override of `Config::new` (`src/config.rs`
lines 70–72). -/
def envRouteStage (envf : String → Option String) (config : Config) : Config :=
  match envf "OVOS_BUS_ROUTE" with
  | some route => { config with route := route }
  | none => config

/-- The `OVOS_BUS_USE_SSL` override of `Config::new` (`src/config.rs`
lines 73–75): `ssl := true` whenever the variable is set at all,
regardless of its value. -/
def envSslStage (envf : String → Option String) (config : Config) : Config :=
  match envf "OVOS_BUS_USE_SSL" with
  | some _ => { config with ssl := true }
  | none => config

/-- The environment-override stage of `Config::new` (`src/config.rs`
lines 56–75), applying the five overrides in the source's order. -/
def envStage (envf : String → Option String) (config : Config) : Config :=
  envSslStage envf (envRouteStage envf (envMaxSizeStage envf
    (envPortStage envf (envHostStage envf config))))

/-- Embedding of `Config::new` (`src/config.rs` lines 36–78): built-in
defaults, then the optional config file, then environment-variable
overrides. -/
def Config.new (envf : String → Option String) (fsf : String → Option String)
    (yamlf : String → Option RootConfig) (rmc : String → String) : Config :=
  envStage envf (fileStage envf fsf yamlf rmc defaultConfig)

/-- A concrete `websocket` file section used to evaluate the theorems on
closed inputs: named fields partly set, one unrecognized key. -/
def wsSample : WebSocketConfig :=
  { host := some "openvoiceos.org"
    port := some ⟨847, by decide⟩
    route := some "/file"
    ssl := none
    max_msg_size := some 64
    extra := [("allow_self_signed", JValue.bool true)] }

/-- A concrete parsed config file holding `wsSample`. -/
def rootSample : RootConfig := ⟨some wsSample⟩

/-- A concrete environment: config file set, `host` and `port`
overridden, `OVOS_BUS_USE_SSL` set to the string `false`, route and
max size left unset. -/
def envSample : String → Option String := fun s =>
  if s = "OVOS_BUS_CONFIG_FILE" then some "bus.conf"
  else if s = "OVOS_BUS_HOST" then some "battle.net"
  else if s = "OVOS_BUS_PORT" then some "1337"
  else if s = "OVOS_BUS_USE_SSL" then some "false"
  else none

/-- A concrete file system holding one readable config file. -/
def fsSample : String → Option String := fun f =>
  if f = "bus.conf" then some "websocket: sample" else none

/-- A concrete YAML deserializer that accepts exactly the sample file's
contents. -/
def yamlSample : String → Option RootConfig := fun c =>
  if c = "websocket: sample" then some rootSample else none

/-- A concrete `websocket` section that sets no named field and has no
unrecognized keys. -/
def wsEmpty : WebSocketConfig :=
  { host := none
    port := none
    route := none
    ssl := none
    max_msg_size := none
    extra := [] }

/-- A concrete prior configuration carrying a nonempty `extra` bag. -/
def cfgPrev : Config :=
  { defaultConfig with extra := [("stale_option", JValue.null)] }

/-- A concrete YAML deserializer that accepts only the cleaned contents
(exercising the comment-removal retry). -/
def yamlRetry : String → Option RootConfig := fun c =>
  if c = "clean" then some rootSample else none

/-- A concrete comment stripper mapping everything to the cleaned
contents. -/
def rmcSample : String → String := fun _ => "clean"

/-- A concrete environment whose only setting is `OVOS_BUS_USE_SSL`, with
the string value `false`. -/
def envSslFalse : String → Option String := fun s =>
  if s = "OVOS_BUS_USE_SSL" then some "false" else none

/-!
The Broadcast Engine.  The repository's `message_bus` module is declared
by `src/main.rs` (`mod message_bus;`) but its source file is not among
the sources at hand, so the engine is modelled from the spec below.
Connection identifiers are embedded as naturals, the registry snapshot as
a duplicate-free list of identifiers, and the JSON envelope parser of the
engine as an explicit function parameter `parsef` (a parse failure —
invalid JSON or a missing `type` field — is `none`).
-/

/-- Modelled from the spec: the `MessageEnvelope` of the missing
`message_bus` module — `type` (required string), `data` and `context`
(optional mappings, defaulting to empty). -/
structure MessageEnvelope where
  etype : String
  data : List (String × JValue)
  context : List (String × JValue)

/-- Modelled from the spec: key lookup in a JSON/YAML mapping (first
binding wins). -/
def lookupKey (kvs : List (String × JValue)) (k : String) : Option JValue :=
  (kvs.find? (fun p => p.1 = k)).map Prod.snd

/-- Modelled from the spec: read a JSON value as an ordered sequence of
connection identifiers, when that is what it is. -/
def asIdList : JValue → Option (List Nat)
  | JValue.arr xs =>
      xs.mapM (fun v =>
        match v with
        | JValue.num n => if n < 0 then none else some n.toNat
        | _ => none)
  | _ => none

/-- Modelled from the spec: the reserved `destination` key of `context`,
an ordered sequence of target connection identifiers when present. -/
def destinationOf (e : MessageEnvelope) : Option (List Nat) :=
  match lookupKey e.context "destination" with
  | some v => asIdList v
  | none => none

/-- Modelled from the spec: the routing decision of the missing
`message_bus` module (§4.2 step 3) — when `context.destination` is
present and non-empty, deliver the envelope unmodified to exactly the
listed ids that are currently registered; otherwise deliver it unmodified
to every connection in the registry snapshot except the sender `src`. -/
def route (registry : List Nat) (src : Nat) (e : MessageEnvelope) :
    List (Nat × MessageEnvelope) :=
  match destinationOf e with
  | some ds =>
      if ds.isEmpty then
        (registry.filter (fun b => b ≠ src)).map (fun b => (b, e))
      else
        (ds.filter (fun d => registry.contains d)).map (fun d => (d, e))
  | none => (registry.filter (fun b => b ≠ src)).map (fun b => (b, e))

/-- Modelled from the spec: the error envelope the bus originates for an
oversized frame (`type` indicating the error condition, `data` describing
the problem). -/
def oversizeError : MessageEnvelope :=
  { etype := "error"
    data := [("error", JValue.str "message-too-large")]
    context := [] }

/-- Modelled from the spec: the error envelope the bus originates for a
malformed frame. -/
def malformedError : MessageEnvelope :=
  { etype := "error"
    data := [("error", JValue.str "malformed-payload")]
    context := [] }

/-- The outcome of the Broadcast Engine on one inbound frame: the
deliveries pushed to recipients, the responses sent back to the sender,
and whether the sender's connection is torn down. -/
structure StepResult where
  deliveries : List (Nat × MessageEnvelope)
  senderResponses : List MessageEnvelope
  disconnectSender : Bool

/-- Modelled from the spec: the frame-handling algorithm of the missing
`message_bus` module (§4.2).  Step 1 rejects an oversized frame outright,
before the parser or the registry is consulted, answering the sender with
one oversize error and keeping the connection open; step 2 answers a
parse failure with one malformed-envelope error, again keeping the
connection open; step 3 routes an accepted envelope via `route`. -/
def processFrame (max_msg_size : Nat)
    (parsef : String → Option MessageEnvelope)
    (registry : List Nat) (src : Nat) (frame : String) : StepResult :=
  if frame.utf8ByteSize > max_msg_size then
    { deliveries := []
      senderResponses := [oversizeError]
      disconnectSender := false }
  else
    match parsef frame with
    | none =>
        { deliveries := []
          senderResponses := [malformedError]
          disconnectSender := false }
    | some e =>
        { deliveries := route registry src e
          senderResponses := []
          disconnectSender := false }

/-- C1: a valid envelope from `src` with no `context.destination` is
delivered, unchanged, exactly once to every connection of the registry
snapshot other than `src`, and never to `src` itself (nor to anyone
outside the snapshot). -/
theorem broadcast_fanout_exactly_once (registry : List Nat) (src : Nat)
    (e : MessageEnvelope) (hnd : registry.Nodup)
    (hdest : destinationOf e = none) :
    (∀ b ∈ registry, b ≠ src →
      ((route registry src e).map Prod.fst).count b = 1) ∧
    ((route registry src e).map Prod.fst).count src = 0 ∧
    (∀ p ∈ route registry src e, p.2 = e ∧ p.1 ∈ registry ∧ p.1 ≠ src) := by
  have hroute : route registry src e =
      (registry.filter (fun b => b ≠ src)).map (fun b => (b, e)) := by
    unfold route
    rw [hdest]
  have hfst : (route registry src e).map Prod.fst =
      registry.filter (fun b => b ≠ src) := by
    rw [hroute, List.map_map]
    exact List.map_id _
  refine ⟨?_, ?_, ?_⟩
  · intro b hb hbs
    rw [hfst]
    exact List.count_eq_one_of_mem (hnd.filter _)
      (List.mem_filter.mpr ⟨hb, by simpa using hbs⟩)
  · rw [hfst, List.count_eq_zero]
    intro hmem
    have h := List.mem_filter.mp hmem
    simp at h
  · intro p hp
    rw [hroute] at hp
    obtain ⟨b, hb, rfl⟩ := List.mem_map.mp hp
    have hbf := List.mem_filter.mp hb
    exact ⟨rfl, hbf.1, by simpa using hbf.2⟩

/-- Witness for C1 at the concrete snapshot `[1, 2, 3]`, sender `1`. -/
theorem broadcast_fanout_exactly_once_witness :
    (∀ b ∈ [1, 2, 3], b ≠ 1 →
      ((route [1, 2, 3] 1 { etype := "ping", data := [], context := [] }).map
        Prod.fst).count b = 1) ∧
    ((route [1, 2, 3] 1 { etype := "ping", data := [], context := [] }).map
      Prod.fst).count 1 = 0 ∧
    (∀ p ∈ route [1, 2, 3] 1 { etype := "ping", data := [], context := [] },
      p.2 = { etype := "ping", data := [], context := [] } ∧
      p.1 ∈ [1, 2, 3] ∧ p.1 ≠ 1) :=
  broadcast_fanout_exactly_once [1, 2, 3] 1
    { etype := "ping", data := [], context := [] } (by decide) (by rfl)

/-- C2: an oversized frame is handled identically whatever the parser and
whatever the registry (it is rejected before either is consulted), is
delivered to nobody, draws exactly one oversize-error response to the
sender, and leaves the sender connected. -/
theorem oversize_frame_rejected (max_msg_size : Nat)
    (parse₁ parse₂ : String → Option MessageEnvelope)
    (reg₁ reg₂ : List Nat) (src : Nat) (frame : String)
    (h : frame.utf8ByteSize > max_msg_size) :
    processFrame max_msg_size parse₁ reg₁ src frame =
      processFrame max_msg_size parse₂ reg₂ src frame ∧
    (processFrame max_msg_size parse₁ reg₁ src frame).deliveries = [] ∧
    (processFrame max_msg_size parse₁ reg₁ src frame).senderResponses =
      [oversizeError] ∧
    (processFrame max_msg_size parse₁ reg₁ src frame).disconnectSender =
      false := by
  unfold processFrame
  rw [if_pos h, if_pos h]
  exact ⟨rfl, rfl, rfl, rfl⟩

/-- Witness for C2: a 3-byte frame against `max_msg_size = 2`, with two
different parsers and registries. -/
theorem oversize_frame_rejected_witness :
    "abc".utf8ByteSize > 2 ∧
    (processFrame 2 (fun _ => none) [1, 2] 1 "abc" =
      processFrame 2 (fun _ => some { etype := "abc", data := [], context := [] })
        [7] 1 "abc" ∧
    (processFrame 2 (fun _ => none) [1, 2] 1 "abc").deliveries = [] ∧
    (processFrame 2 (fun _ => none) [1, 2] 1 "abc").senderResponses =
      [oversizeError] ∧
    (processFrame 2 (fun _ => none) [1, 2] 1 "abc").disconnectSender = false) :=
  ⟨by decide,
    oversize_frame_rejected 2 (fun _ => none)
      (fun _ => some { etype := "abc", data := [], context := [] })
      [1, 2] [7] 1 "abc" (by decide)⟩

/-- C3: a frame within the size bound that fails envelope parsing (not
valid JSON, or no `type` field) is delivered to nobody, draws exactly one
malformed-envelope error response to the sender, and leaves the sender
connected. -/
theorem malformed_frame_rejected (max_msg_size : Nat)
    (parsef : String → Option MessageEnvelope)
    (registry : List Nat) (src : Nat) (frame : String)
    (hsize : frame.utf8ByteSize ≤ max_msg_size)
    (hparse : parsef frame = none) :
    (processFrame max_msg_size parsef registry src frame).deliveries = [] ∧
    (processFrame max_msg_size parsef registry src frame).senderResponses =
      [malformedError] ∧
    (processFrame max_msg_size parsef registry src frame).disconnectSender =
      false := by
  unfold processFrame
  rw [if_neg (by omega), hparse]
  exact ⟨rfl, rfl, rfl⟩

/-- Witness for C3: a 1-byte frame the parser rejects, against
`max_msg_size = 25`. -/
theorem malformed_frame_rejected_witness :
    "x".utf8ByteSize ≤ 25 ∧ (fun _ : String => (none : Option MessageEnvelope)) "x" = none ∧
    ((processFrame 25 (fun _ => none) [1, 2] 1 "x").deliveries = [] ∧
    (processFrame 25 (fun _ => none) [1, 2] 1 "x").senderResponses =
      [malformedError] ∧
    (processFrame 25 (fun _ => none) [1, 2] 1 "x").disconnectSender = false) :=
  ⟨by decide, rfl,
    malformed_frame_rejected 25 (fun _ => none) [1, 2] 1 "x" (by decide) rfl⟩

/-! Field-wise characterizations of the environment-override stage. -/

theorem envHostStage_eq (envf : String → Option String) (c : Config) :
    envHostStage envf c = { c with host := (envf "OVOS_BUS_HOST").getD c.host } := by
  cases h : envf "OVOS_BUS_HOST" <;> simp [envHostStage, h]

theorem envPortStage_eq (envf : String → Option String) (c : Config) :
    envPortStage envf c =
      { c with port := ((envf "OVOS_BUS_PORT").bind parseU16).getD c.port } := by
  cases h : envf "OVOS_BUS_PORT" with
  | none => simp [envPortStage, h]
  | some p => cases hq : parseU16 p <;> simp [envPortStage, h, hq]

theorem envMaxSizeStage_eq (envf : String → Option String) (c : Config) :
    envMaxSizeStage envf c =
      { c with max_msg_size :=
          ((envf "OVOS_BUS_MAX_MSG_SIZE").bind parseU32).getD c.max_msg_size } := by
  cases h : envf "OVOS_BUS_MAX_MSG_SIZE" with
  | none => simp [envMaxSizeStage, h]
  | some s => cases hq : parseU32 s <;> simp [envMaxSizeStage, h, hq]

theorem envRouteStage_eq (envf : String → Option String) (c : Config) :
    envRouteStage envf c =
      { c with route := (envf "OVOS_BUS_ROUTE").getD c.route } := by
  cases h : envf "OVOS_BUS_ROUTE" <;> simp [envRouteStage, h]

theorem envSslStage_eq (envf : String → Option String) (c : Config) :
    envSslStage envf c =
      { c with ssl := c.ssl || (envf "OVOS_BUS_USE_SSL").isSome } := by
  cases h : envf "OVOS_BUS_USE_SSL" <;> simp [envSslStage, h]

theorem envStage_eq (envf : String → Option String) (c : Config) :
    envStage envf c =
      { host := (envf "OVOS_BUS_HOST").getD c.host
        port := ((envf "OVOS_BUS_PORT").bind parseU16).getD c.port
        route := (envf "OVOS_BUS_ROUTE").getD c.route
        ssl := c.ssl || (envf "OVOS_BUS_USE_SSL").isSome
        max_msg_size :=
          ((envf "OVOS_BUS_MAX_MSG_SIZE").bind parseU32).getD c.max_msg_size
        extra := c.extra } := by
  rw [envStage, envHostStage_eq, envPortStage_eq, envMaxSizeStage_eq,
    envRouteStage_eq, envSslStage_eq]

/-- C4: the resolved configuration `Config::new` returns is exactly a
record of the fields `host`, `port`, `route`, `ssl`, `max_msg_size`, and
the open `extra` bag; and the `extra` bag holds precisely the `websocket`
section's unrecognized options whenever a config file is loaded and
parsed. -/
theorem config_new_shape (envf fsf : String → Option String)
    (yamlf : String → Option RootConfig) (rmc : String → String) :
    Config.new envf fsf yamlf rmc =
      Config.mk (Config.new envf fsf yamlf rmc).host
        (Config.new envf fsf yamlf rmc).port
        (Config.new envf fsf yamlf rmc).route
        (Config.new envf fsf yamlf rmc).ssl
        (Config.new envf fsf yamlf rmc).max_msg_size
        (Config.new envf fsf yamlf rmc).extra ∧
    (∀ f c root ws, envf "OVOS_BUS_CONFIG_FILE" = some f → fsf f = some c →
      yamlf c = some root → root.websocket = some ws →
      (Config.new envf fsf yamlf rmc).extra = ws.extra) := by
  constructor
  · rfl
  · intro f c root ws hf hc hy hw
    have h1 : fileStage envf fsf yamlf rmc defaultConfig =
        Config.apply_config root defaultConfig := by
      unfold fileStage Config.parse_config
      simp only [hf, hc, hy]
    have h2 : (Config.apply_config root defaultConfig).extra = ws.extra := by
      unfold Config.apply_config
      rw [hw]
    show (envStage envf (fileStage envf fsf yamlf rmc defaultConfig)).extra =
      ws.extra
    rw [envStage_eq, h1]
    exact h2

/-- Witness for C4 on the sample environment, file system and
deserializer. -/
theorem config_new_shape_witness :
    envSample "OVOS_BUS_CONFIG_FILE" = some "bus.conf" ∧
    fsSample "bus.conf" = some "websocket: sample" ∧
    yamlSample "websocket: sample" = some rootSample ∧
    rootSample.websocket = some wsSample ∧
    (Config.new envSample fsSample yamlSample id).extra = wsSample.extra := by
  refine ⟨rfl, rfl, ?_, rfl, ?_⟩
  · show (if ("websocket: sample" : String) = "websocket: sample"
      then some rootSample else none) = some rootSample
    rw [if_pos rfl]
  · exact (config_new_shape envSample fsSample yamlSample id).2
      "bus.conf" "websocket: sample" rootSample wsSample rfl rfl
      (by rw [yamlSample, if_pos rfl]) rfl

/-- C5: in the embedding, `host` and `route` are strings, `ssl` a
boolean, and `max_msg_size` an unsigned integer by the very type of
`Config`; the port value `Config::new` returns always fits in 16 bits. -/
theorem config_new_port_fits_u16 (envf fsf : String → Option String)
    (yamlf : String → Option RootConfig) (rmc : String → String) :
    (Config.new envf fsf yamlf rmc).port.val < 65536 :=
  (Config.new envf fsf yamlf rmc).port.isLt

/-- C7: when the YAML deserializer rejects the raw file contents,
`parse_config` retries exactly once on the comment-stripped contents and
applies the result of a successful retry; a first-attempt success is
applied without any comment stripping. -/
theorem parse_config_comment_retry (yamlf : String → Option RootConfig)
    (rmc : String → String) (contents : String) (config : Config) :
    (∀ root, yamlf contents = none → yamlf (rmc contents) = some root →
      Config.parse_config yamlf rmc contents config =
        Config.apply_config root config) ∧
    (∀ root, yamlf contents = some root →
      Config.parse_config yamlf rmc contents config =
        Config.apply_config root config) := by
  constructor
  · intro root hfail hok
    unfold Config.parse_config
    simp only [hfail, hok]
  · intro root hok
    unfold Config.parse_config
    simp only [hok]

/-- Witness for C7: a deserializer that accepts only the cleaned
contents. -/
theorem parse_config_comment_retry_witness :
    yamlRetry "# dirty" = none ∧
    yamlRetry (rmcSample "# dirty") = some rootSample ∧
    Config.parse_config yamlRetry rmcSample "# dirty" defaultConfig =
      Config.apply_config rootSample defaultConfig := by
  refine ⟨?_, ?_, ?_⟩
  · rw [yamlRetry, if_neg (by decide)]
  · rw [rmcSample, yamlRetry, if_pos rfl]
  · exact (parse_config_comment_retry yamlRetry rmcSample "# dirty"
        defaultConfig).1 rootSample
      (by rw [yamlRetry, if_neg (by decide)])
      (by rw [rmcSample, yamlRetry, if_pos rfl])

/-- C10: with a `websocket` section present, `apply_config` keeps each
named field that the section omits, and unconditionally replaces the
whole `extra` bag with the section's unrecognized keys. -/
theorem apply_config_field_semantics (config : Config)
    (ws : WebSocketConfig) :
    (ws.host = none →
      (Config.apply_config ⟨some ws⟩ config).host = config.host) ∧
    (ws.port = none →
      (Config.apply_config ⟨some ws⟩ config).port = config.port) ∧
    (ws.route = none →
      (Config.apply_config ⟨some ws⟩ config).route = config.route) ∧
    (ws.ssl = none →
      (Config.apply_config ⟨some ws⟩ config).ssl = config.ssl) ∧
    (ws.max_msg_size = none →
      (Config.apply_config ⟨some ws⟩ config).max_msg_size =
        config.max_msg_size) ∧
    (Config.apply_config ⟨some ws⟩ config).extra = ws.extra := by
  unfold Config.apply_config
  refine ⟨?_, ?_, ?_, ?_, ?_, rfl⟩ <;> intro h <;> simp [h]

/-- Witness for C10: an all-omitting, extra-free `websocket` section
applied to a configuration with a stale `extra` bag clears the bag and
changes nothing else. -/
theorem apply_config_field_semantics_witness :
    ((Config.apply_config ⟨some wsEmpty⟩ cfgPrev).host = cfgPrev.host ∧
    (Config.apply_config ⟨some wsEmpty⟩ cfgPrev).port = cfgPrev.port ∧
    (Config.apply_config ⟨some wsEmpty⟩ cfgPrev).route = cfgPrev.route ∧
    (Config.apply_config ⟨some wsEmpty⟩ cfgPrev).ssl = cfgPrev.ssl ∧
    (Config.apply_config ⟨some wsEmpty⟩ cfgPrev).max_msg_size =
      cfgPrev.max_msg_size ∧
    (Config.apply_config ⟨some wsEmpty⟩ cfgPrev).extra = wsEmpty.extra) ∧
    wsEmpty.extra = [] ∧
    cfgPrev.extra = [("stale_option", JValue.null)] := by
  refine ⟨?_, rfl, rfl⟩
  have h := apply_config_field_semantics cfgPrev wsEmpty
  exact ⟨h.1 rfl, h.2.1 rfl, h.2.2.1 rfl, h.2.2.2.1 rfl, h.2.2.2.2.1 rfl,
    h.2.2.2.2.2⟩

/-- C6: `Config::new` resolves defaults, then the file named by
`OVOS_BUS_CONFIG_FILE` (when set and readable), then the environment
overrides, so that for every field a set-and-valid environment variable
beats the file-stage value, which in turn is the parsed file's value when
a file loads and the default when none does. -/
theorem config_new_precedence (envf fsf : String → Option String)
    (yamlf : String → Option RootConfig) (rmc : String → String) :
    Config.new envf fsf yamlf rmc =
      envStage envf (fileStage envf fsf yamlf rmc defaultConfig) ∧
    (∀ h, envf "OVOS_BUS_HOST" = some h →
      (Config.new envf fsf yamlf rmc).host = h) ∧
    (envf "OVOS_BUS_HOST" = none →
      (Config.new envf fsf yamlf rmc).host =
        (fileStage envf fsf yamlf rmc defaultConfig).host) ∧
    (∀ p n, envf "OVOS_BUS_PORT" = some p → parseU16 p = some n →
      (Config.new envf fsf yamlf rmc).port = n) ∧
    ((envf "OVOS_BUS_PORT").bind parseU16 = none →
      (Config.new envf fsf yamlf rmc).port =
        (fileStage envf fsf yamlf rmc defaultConfig).port) ∧
    (∀ s n, envf "OVOS_BUS_MAX_MSG_SIZE" = some s → parseU32 s = some n →
      (Config.new envf fsf yamlf rmc).max_msg_size = n) ∧
    ((envf "OVOS_BUS_MAX_MSG_SIZE").bind parseU32 = none →
      (Config.new envf fsf yamlf rmc).max_msg_size =
        (fileStage envf fsf yamlf rmc defaultConfig).max_msg_size) ∧
    (∀ r, envf "OVOS_BUS_ROUTE" = some r →
      (Config.new envf fsf yamlf rmc).route = r) ∧
    (envf "OVOS_BUS_ROUTE" = none →
      (Config.new envf fsf yamlf rmc).route =
        (fileStage envf fsf yamlf rmc defaultConfig).route) ∧
    (∀ v, envf "OVOS_BUS_USE_SSL" = some v →
      (Config.new envf fsf yamlf rmc).ssl = true) ∧
    (envf "OVOS_BUS_USE_SSL" = none →
      (Config.new envf fsf yamlf rmc).ssl =
        (fileStage envf fsf yamlf rmc defaultConfig).ssl) ∧
    (∀ f c root, envf "OVOS_BUS_CONFIG_FILE" = some f → fsf f = some c →
      yamlf c = some root →
      fileStage envf fsf yamlf rmc defaultConfig =
        Config.apply_config root defaultConfig) ∧
    (envf "OVOS_BUS_CONFIG_FILE" = none →
      fileStage envf fsf yamlf rmc defaultConfig = defaultConfig) := by
  have hnew : Config.new envf fsf yamlf rmc =
      envStage envf (fileStage envf fsf yamlf rmc defaultConfig) := rfl
  refine ⟨hnew, ?_, ?_, ?_, ?_, ?_, ?_, ?_, ?_, ?_, ?_, ?_, ?_⟩
  · intro h hh
    rw [hnew, envStage_eq]
    simp [hh]
  · intro hh
    rw [hnew, envStage_eq]
    simp [hh]
  · intro p n hp hn
    rw [hnew, envStage_eq]
    simp [hp, hn]
  · intro hp
    rw [hnew, envStage_eq]
    simp [hp]
  · intro s n hs hn
    rw [hnew, envStage_eq]
    simp [hs, hn]
  · intro hs
    rw [hnew, envStage_eq]
    simp [hs]
  · intro r hr
    rw [hnew, envStage_eq]
    simp [hr]
  · intro hr
    rw [hnew, envStage_eq]
    simp [hr]
  · intro v hv
    rw [hnew, envStage_eq]
    simp [hv]
  · intro hv
    rw [hnew, envStage_eq]
    simp [hv]
  · intro f c root hf hc hy
    unfold fileStage Config.parse_config
    simp only [hf, hc, hy]
  · intro hf
    unfold fileStage
    rw [hf]

/-- Witness for C6 on the sample scenario: environment beats file for
`host` and `port`, the file's values stand for `route` and
`max_msg_size`, and `OVOS_BUS_USE_SSL` (set to the string `false`) forces
`ssl`. -/
theorem config_new_precedence_witness :
    (Config.new envSample fsSample yamlSample id).host = "battle.net" ∧
    (Config.new envSample fsSample yamlSample id).port.val = 1337 ∧
    (Config.new envSample fsSample yamlSample id).ssl = true ∧
    (Config.new envSample fsSample yamlSample id).route = "/file" ∧
    (Config.new envSample fsSample yamlSample id).max_msg_size = 64 := by
  obtain ⟨h0, hhost, hhostN, hport, hportN, hmax, hmaxN, hroute, hrouteN,
    hssl, hsslN, hfile, hfileN⟩ :=
    config_new_precedence envSample fsSample yamlSample id
  have hfs : fileStage envSample fsSample yamlSample id defaultConfig =
      Config.apply_config rootSample defaultConfig :=
    hfile "bus.conf" "websocket: sample" rootSample rfl rfl
      (by rw [yamlSample, if_pos rfl])
  refine ⟨hhost "battle.net" rfl, ?_, hssl "false" rfl, ?_, ?_⟩
  · rw [hport "1337" ⟨1337, by decide⟩ rfl (by decide)]
  · rw [hrouteN rfl, hfs]
    rfl
  · rw [hmaxN rfl, hfs]
    rfl

/-- C8: `Config::new` always returns a configuration; when the file stage
contributes nothing — variable unset, file unreadable, or YAML parsing
failing even after comment removal — the result is the environment
overrides applied to the built-in defaults `127.0.0.1`, `8181`, `/core`,
no SSL, `max_msg_size` 25. -/
theorem config_new_total_defaults (envf fsf : String → Option String)
    (yamlf : String → Option RootConfig) (rmc : String → String)
    (h : envf "OVOS_BUS_CONFIG_FILE" = none ∨
      (∃ f, envf "OVOS_BUS_CONFIG_FILE" = some f ∧ fsf f = none) ∨
      (∃ f c, envf "OVOS_BUS_CONFIG_FILE" = some f ∧ fsf f = some c ∧
        yamlf c = none ∧ yamlf (rmc c) = none)) :
    Config.new envf fsf yamlf rmc = envStage envf defaultConfig ∧
    defaultConfig.host = "127.0.0.1" ∧ defaultConfig.port.val = 8181 ∧
    defaultConfig.route = "/core" ∧ defaultConfig.ssl = false ∧
    defaultConfig.max_msg_size = 25 := by
  have hfile : fileStage envf fsf yamlf rmc defaultConfig = defaultConfig := by
    rcases h with h | ⟨f, hf, hfs⟩ | ⟨f, c, hf, hfs, hy1, hy2⟩
    · unfold fileStage
      rw [h]
    · unfold fileStage
      simp only [hf, hfs]
    · unfold fileStage Config.parse_config
      simp only [hf, hfs, hy1, hy2]
  refine ⟨?_, rfl, rfl, rfl, rfl, rfl⟩
  show envStage envf (fileStage envf fsf yamlf rmc defaultConfig) =
    envStage envf defaultConfig
  rw [hfile]

/-- Witness for C8 in an empty environment. -/
theorem config_new_total_defaults_witness :
    Config.new (fun _ => none) (fun _ => none) (fun _ => none) id =
      envStage (fun _ => none) defaultConfig ∧
    defaultConfig.host = "127.0.0.1" ∧ defaultConfig.port.val = 8181 ∧
    defaultConfig.route = "/core" ∧ defaultConfig.ssl = false ∧
    defaultConfig.max_msg_size = 25 :=
  config_new_total_defaults (fun _ => none) (fun _ => none) (fun _ => none)
    id (Or.inl rfl)

/-- C9: whenever `OVOS_BUS_USE_SSL` is set — to any value whatsoever —
`Config::new` returns `ssl = true`; when it is unset the file-stage value
stands; and the environment can never turn a true `ssl` off. -/
theorem config_new_ssl_env_only_enables (envf fsf : String → Option String)
    (yamlf : String → Option RootConfig) (rmc : String → String) :
    (∀ v, envf "OVOS_BUS_USE_SSL" = some v →
      (Config.new envf fsf yamlf rmc).ssl = true) ∧
    (envf "OVOS_BUS_USE_SSL" = none →
      (Config.new envf fsf yamlf rmc).ssl =
        (fileStage envf fsf yamlf rmc defaultConfig).ssl) ∧
    ((fileStage envf fsf yamlf rmc defaultConfig).ssl = true →
      (Config.new envf fsf yamlf rmc).ssl = true) := by
  have hnew : Config.new envf fsf yamlf rmc =
      envStage envf (fileStage envf fsf yamlf rmc defaultConfig) := rfl
  refine ⟨?_, ?_, ?_⟩
  · intro v hv
    rw [hnew, envStage_eq]
    simp [hv]
  · intro hv
    rw [hnew, envStage_eq]
    simp [hv]
  · intro hb
    rw [hnew, envStage_eq]
    simp [hb]

/-- Witness for C9: `OVOS_BUS_USE_SSL` set to the string `false` still
yields `ssl = true`. -/
theorem config_new_ssl_env_only_enables_witness :
    envSslFalse "OVOS_BUS_USE_SSL" = some "false" ∧
    (Config.new envSslFalse (fun _ => none) (fun _ => none) id).ssl = true :=
  ⟨rfl, (config_new_ssl_env_only_enables envSslFalse (fun _ => none)
    (fun _ => none) id).1 "false" rfl⟩
